import Mathlib

/-!
# Verification of the Multi-Source Enrichment & Caching Engine

A shallow embedding, in Lean 4, of the core of the `backend` package:
the analysis-cache hashing and TTL logic of `database.py`, the
multi-source aggregation and confidence logic of
`multi_source_service.py`, and the entity-cache write-through of
`nlp_service.py`.  Pure functions of the Python source are translated
into executable Lean functions; database state is modelled as explicit
lists of rows passed in and out; wall-clock timestamps are modelled as
`Int` values (seconds), matching the chronological order of the ISO
strings the source compares.  32-bit machine arithmetic inside SHA-256
is modelled as `Nat` reduced modulo `2 ^ 32`.
-/

namespace B65

/-! ## SHA-256 over `Nat`

`database.generate_text_hash` calls `hashlib.sha256(...).hexdigest()`.
The implementation below follows FIPS 180-4 with 32-bit words modelled
as `Nat` values kept below `2 ^ 32`. -/

/-- Reduce a `Nat` to a 32-bit word. -/
def w32 (x : Nat) : Nat := x % 4294967296

/-- Right rotation of a 32-bit word by `n` places. -/
def rotr32 (x n : Nat) : Nat := w32 ((x >>> n) ||| (x <<< (32 - n)))

/-- The SHA-256 choice function. -/
def shaCh (x y z : Nat) : Nat := (x &&& y) ^^^ ((x ^^^ 4294967295) &&& z)

/-- The SHA-256 majority function. -/
def shaMaj (x y z : Nat) : Nat := (x &&& y) ^^^ (x &&& z) ^^^ (y &&& z)

/-- The big sigma-0 function of SHA-256. -/
def bsig0 (x : Nat) : Nat := rotr32 x 2 ^^^ rotr32 x 13 ^^^ rotr32 x 22

/-- The big sigma-1 function of SHA-256. -/
def bsig1 (x : Nat) : Nat := rotr32 x 6 ^^^ rotr32 x 11 ^^^ rotr32 x 25

/-- The small sigma-0 function of SHA-256. -/
def ssig0 (x : Nat) : Nat := rotr32 x 7 ^^^ rotr32 x 18 ^^^ (x >>> 3)

/-- The small sigma-1 function of SHA-256. -/
def ssig1 (x : Nat) : Nat := rotr32 x 17 ^^^ rotr32 x 19 ^^^ (x >>> 10)

/-- The 64 SHA-256 round constants. -/
def shaK : List Nat :=
  [1116352408, 1899447441, 3049323471, 3921009573, 961987163, 1508970993,
   2453635748, 2870763221, 3624381080, 310598401, 607225278, 1426881987,
   1925078388, 2162078206, 2614888103, 3248222580, 3835390401, 4022224774,
   264347078, 604807628, 770255983, 1249150122, 1555081692, 1996064986,
   2554220882, 2821834349, 2952996808, 3210313671, 3336571891, 3584528711,
   113926993, 338241895, 666307205, 773529912, 1294757372, 1396182291,
   1695183700, 1986661051, 2177026350, 2456956037, 2730485921, 2820302411,
   3259730800, 3345764771, 3516065817, 3600352804, 4094571909, 275423344,
   430227734, 506948616, 659060556, 883997877, 958139571, 1322822218,
   1537002063, 1747873779, 1955562222, 2024104815, 2227730452, 2361852424,
   2428436474, 2756734187, 3204031479, 3329325298]

/-- The eight SHA-256 initial hash values. -/
def shaH0 : List Nat :=
  [1779033703, 3144134277, 1013904242, 2773480762,
   1359893119, 2600822924, 528734635, 1541459225]

/-- One step of the message schedule.  `recent` holds the words produced
so far, most recent first, so index 1 is `w[t-2]` and index 15 is `w[t-16]`. -/
def schedStep (recent : List Nat) : Nat :=
  w32 (ssig1 (recent.getD 1 0) + recent.getD 6 0 + ssig0 (recent.getD 14 0) + recent.getD 15 0)

/-- Extend the reversed message schedule by `n` words. -/
def extendSched (recent : List Nat) : Nat → List Nat
  | 0 => recent
  | n + 1 => extendSched (schedStep recent :: recent) n

/-- The 64-word message schedule of a 16-word block. -/
def msgSched (block : List Nat) : List Nat :=
  (extendSched block.reverse 48).reverse

/-- One SHA-256 compression round on the 8-word working state. -/
def shaRound (st : List Nat) (kt wt : Nat) : List Nat :=
  match st with
  | [a, b, c, d, e, f, g, h] =>
    let t1 := w32 (h + bsig1 e + shaCh e f g + kt + wt)
    let t2 := w32 (bsig0 a + shaMaj a b c)
    [w32 (t1 + t2), a, b, c, w32 (d + t1), e, f, g]
  | st => st

/-- Run the 64 compression rounds. -/
def shaRounds (st : List Nat) : List Nat → List Nat → List Nat
  | kt :: ks, wt :: ws => shaRounds (shaRound st kt wt) ks ws
  | _, _ => st

/-- Compress one 16-word block into the running 8-word hash state. -/
def shaCompress (st : List Nat) (block : List Nat) : List Nat :=
  List.zipWith (fun x y => w32 (x + y)) st (shaRounds st shaK (msgSched block))

/-- Big-endian 8-byte encoding of a 64-bit length. -/
def be64 (n : Nat) : List Nat :=
  [(n >>> 56) % 256, (n >>> 48) % 256, (n >>> 40) % 256, (n >>> 32) % 256,
   (n >>> 24) % 256, (n >>> 16) % 256, (n >>> 8) % 256, n % 256]

/-- SHA-256 padding: append `0x80`, zero bytes to 56 mod 64, then the
big-endian bit length. -/
def padMessage (bytes : List Nat) : List Nat :=
  let len := bytes.length
  let zeros := (119 - len % 64) % 64
  bytes ++ 0x80 :: List.replicate zeros 0 ++ be64 (8 * len)

/-- Group a byte list into big-endian 32-bit words. -/
def toWords : List Nat → List Nat
  | b0 :: b1 :: b2 :: b3 :: rest => (((b0 * 256 + b1) * 256 + b2) * 256 + b3) :: toWords rest
  | _ => []

/-- Fold the compression function over `n` leading 64-byte blocks.  The
padded message is always an exact multiple of 64 bytes long, so passing
`length / 64` as `n` processes the whole message. -/
def processBlocks : Nat → List Nat → List Nat → List Nat
  | 0, st, _ => st
  | n + 1, st, bytes => processBlocks n (shaCompress st (toWords (bytes.take 64))) (bytes.drop 64)

/-- UTF-8 encoding of one character as a byte list. -/
def utf8Char (c : Char) : List Nat :=
  let n := c.toNat
  if n < 0x80 then [n]
  else if n < 0x800 then [0xC0 ||| (n >>> 6), 0x80 ||| (n &&& 0x3F)]
  else if n < 0x10000 then
    [0xE0 ||| (n >>> 12), 0x80 ||| ((n >>> 6) &&& 0x3F), 0x80 ||| (n &&& 0x3F)]
  else
    [0xF0 ||| (n >>> 18), 0x80 ||| ((n >>> 12) &&& 0x3F),
     0x80 ||| ((n >>> 6) &&& 0x3F), 0x80 ||| (n &&& 0x3F)]

/-- UTF-8 encoding of a string as a byte list, as Python's `str.encode`. -/
def utf8Encode (s : String) : List Nat :=
  (s.data.map utf8Char).flatten

/-- One lowercase hexadecimal digit. -/
def hexDigit (n : Nat) : Char :=
  if n < 10 then Char.ofNat (48 + n) else Char.ofNat (87 + n)

/-- Two lowercase hexadecimal digits of a byte. -/
def byteHex (b : Nat) : List Char := [hexDigit (b / 16), hexDigit (b % 16)]

/-- Eight lowercase hexadecimal digits of a 32-bit word, big-endian. -/
def wordHex (wd : Nat) : List Char :=
  byteHex ((wd >>> 24) % 256) ++ byteHex ((wd >>> 16) % 256) ++
    byteHex ((wd >>> 8) % 256) ++ byteHex (wd % 256)

/-- The SHA-256 digest of a byte list, as a lowercase hex string: the
value of Python's `hashlib.sha256(bytes).hexdigest()`. -/
def sha256hex (msg : List Nat) : String :=
  let padded := padMessage msg
  String.mk ((processBlocks (padded.length / 64) shaH0 padded).map wordHex).flatten

/-- Whitespace as stripped by Python's `str.strip` (ASCII range). -/
def isPyWhite (c : Char) : Bool :=
  c == ' ' || c == '\t' || c == '\n' || c == '\r' || c == '\x0b' || c == '\x0c'

/-- ASCII lowercasing of one character, as Python's `str.lower` acts on
ASCII letters. -/
def lowerChar (c : Char) : Char :=
  if 65 ≤ c.toNat ∧ c.toNat ≤ 90 then Char.ofNat (c.toNat + 32) else c

/-- Python's `text.strip().lower()` (ASCII-faithful): drop leading and
trailing whitespace, then lowercase every character. -/
def pyNormalize (s : String) : String :=
  String.mk ((((s.data.dropWhile isPyWhite).reverse.dropWhile isPyWhite).reverse).map lowerChar)

/-- Embeds `database.generate_text_hash`: lowercase and strip the text,
join with the language by a pipe character, and hash the UTF-8 bytes
with SHA-256. -/
def generate_text_hash (text language : String) : String :=
  let normalized_text := pyNormalize text
  let hash_input := normalized_text ++ "|" ++ language
  sha256hex (utf8Encode hash_input)

/-! ## Multi-source aggregation (`multi_source_service.py`)

The four provider fetchers wrap external HTTP calls; every fault is
caught inside the fetcher and normalized to `None`.  A provider's
outcome is therefore modelled as an `Option` of the normalized partial
record the fetcher returns on success.  The wall-clock `retrieved_at`
field is not modelled.  All string values inside a partial record are
arbitrary, covering empty and malformed provider data. -/

/-- The partial record `fetch_kg` / `get_knowledge_graph_info` builds
from a Knowledge Graph response (`confidence` is the `resultScore`). -/
structure KGData where
  entity_name : String
  description : String
  detailed_description : String
  url : String
  image_url : String
  types : List String
  confidence : Nat
  deriving Repr, DecidableEq

/-- The partial record `fetch_dbpedia` / `get_dbpedia_info` builds from
a DBpedia response. -/
structure DBpediaData where
  entity_name : String
  abstract : String
  resource_uri : String
  deriving Repr, DecidableEq

/-- The partial record `fetch_wikidata` / `get_wikidata_enhanced` builds
from a Wikidata response; `wikipedia_url` is `None` when the entity has
no English sitelink. -/
structure WikidataData where
  entity_name : String
  wikidata_id : String
  label : String
  description : String
  url : String
  wikipedia_url : Option String
  deriving Repr, DecidableEq

/-- The partial record `fetch_openlibrary` / `get_openlibrary_info`
builds from an OpenLibrary response. -/
structure OLData where
  title : String
  author : List String
  first_publish_year : String
  subject : List String
  isbn : List String
  cover_url : Option String
  url : String
  deriving Repr, DecidableEq

/-- One run's provider outcomes: what each provider would return when
consulted (`none` is a failure, timeout, non-2xx, or no-data response). -/
structure Responses where
  kg : Option KGData
  dbpedia : Option DBpediaData
  wikidata : Option WikidataData
  openlibrary : Option OLData
  deriving Repr, DecidableEq

/-- The keys of the task dictionary in
`_get_comprehensive_info_parallel`. -/
inductive Source where
  | kg
  | dbpedia
  | wikidata
  | openlibrary
  deriving Repr, DecidableEq

/-- A provider's normalized result, tagged by its source, as stored in
the parallel path's `results` dictionary. -/
inductive ProviderResult where
  | kgRes (d : KGData)
  | dbpediaRes (d : DBpediaData)
  | wikidataRes (d : WikidataData)
  | openlibraryRes (d : OLData)
  deriving Repr, DecidableEq

/-- The value the `results` dictionary holds for a source. -/
def Responses.result (r : Responses) : Source → Option ProviderResult
  | .kg => r.kg.map .kgRes
  | .dbpedia => r.dbpedia.map .dbpediaRes
  | .wikidata => r.wikidata.map .wikidataRes
  | .openlibrary => r.openlibrary.map .openlibraryRes

/-- Substring test on character lists, as Python's `in` on strings. -/
def containsChars (needle : List Char) : List Char → Bool
  | [] => needle.isEmpty
  | b :: bs => needle.isPrefixOf (b :: bs) || containsChars needle bs

/-- Python's `keyword in entity_name.lower()` for one keyword. -/
def strContainsSub (hay needle : String) : Bool :=
  containsChars needle.data hay.data

/-- Lowercase a whole string as Python's `str.lower` (ASCII letters). -/
def pyLower (s : String) : String := String.mk (s.data.map lowerChar)

/-- The literary-catalog inclusion test of both execution modes:
`entity_type == "WORK_OF_ART" or any(keyword in entity_name.lower() for
keyword in ['book', 'novel', 'play'])`. -/
def includeOpenLibrary (entity_name entity_type : String) : Bool :=
  entity_type == "WORK_OF_ART" ||
    ["book", "novel", "play"].any fun keyword => strContainsSub (pyLower entity_name) keyword

/-- The tasks submitted to the thread pool in
`_get_comprehensive_info_parallel`. -/
def selectedTasks (entity_name entity_type : String) : List Source :=
  [.kg, .dbpedia, .wikidata] ++
    (if includeOpenLibrary entity_name entity_type then [.openlibrary] else [])

/-- The combined enrichment record built by both execution modes
(`combined_data`).  Keys the Python dict only gains inside a provider
block (`image_url`, `kg_confidence_score`, `dbpedia_uri`, `wikidata_id`,
`literary_info`) and keys initialized to `None` are `Option` fields,
`none` meaning absent-or-`None`.  The wall-clock `retrieved_at` field is
not modelled. -/
structure CombinedData where
  entity_name : String
  entity_type : String
  summary : Option String
  description : Option String
  url : Option String
  image_url : Option String
  sources_consulted : List String
  confidence : String
  kg_confidence_score : Option Nat
  dbpedia_uri : Option String
  wikidata_id : Option String
  literary_info : Option OLData
  deriving Repr, DecidableEq

/-- The initial `combined_data` dictionary of both execution modes. -/
def initialCombined (entity_name entity_type : String) : CombinedData :=
  { entity_name := entity_name
    entity_type := entity_type
    summary := none
    description := none
    url := none
    image_url := none
    sources_consulted := []
    confidence := "low"
    kg_confidence_score := none
    dbpedia_uri := none
    wikidata_id := none
    literary_info := none }

/-- Python's truthiness of an optional string: `None` and `""` are falsy. -/
def optFalsy : Option String → Bool
  | none => true
  | some s => s == ""

/-- Python's `x or y` on two strings. -/
def pyOr (x y : String) : String := if x == "" then y else x

/-- The Knowledge Graph block of the merge (same code in both modes):
unconditionally overwrite the summary, description, url and image_url
and raise the running confidence to `"very high"`. -/
def applyKG (c : CombinedData) : Option KGData → CombinedData
  | none => c
  | some kg_data =>
    { c with
      sources_consulted := c.sources_consulted ++ ["Google Knowledge Graph"]
      summary := some (pyOr kg_data.detailed_description kg_data.description)
      description := some kg_data.description
      url := some kg_data.url
      image_url := some kg_data.image_url
      confidence := "very high"
      kg_confidence_score := some kg_data.confidence }

/-- The DBpedia block of the merge: fill the summary with the abstract
truncated to 500 characters only when the summary is still falsy. -/
def applyDBpedia (c : CombinedData) : Option DBpediaData → CombinedData
  | none => c
  | some dbpedia_data =>
    { c with
      sources_consulted := c.sources_consulted ++ ["DBpedia"]
      summary := if optFalsy c.summary then some (dbpedia_data.abstract.take 500) else c.summary
      dbpedia_uri := some dbpedia_data.resource_uri
      confidence := if c.confidence == "low" then "high" else c.confidence }

/-- The Wikidata block of the merge: fill the description when falsy and
the url when falsy and a Wikipedia sitelink URL is truthy. -/
def applyWikidata (c : CombinedData) : Option WikidataData → CombinedData
  | none => c
  | some wikidata_data =>
    { c with
      sources_consulted := c.sources_consulted ++ ["Wikidata"]
      description :=
        if optFalsy c.description then some wikidata_data.description else c.description
      url :=
        if optFalsy c.url && !optFalsy wikidata_data.wikipedia_url then
          wikidata_data.wikipedia_url
        else c.url
      wikidata_id := some wikidata_data.wikidata_id
      confidence := if c.confidence == "low" then "medium" else c.confidence }

/-- The OpenLibrary block of the merge: attach the whole partial record
as `literary_info`. -/
def applyOpenLibrary (c : CombinedData) : Option OLData → CombinedData
  | none => c
  | some ol_data =>
    { c with
      sources_consulted := c.sources_consulted ++ ["OpenLibrary"]
      literary_info := some ol_data
      confidence := if c.confidence == "low" then "medium" else c.confidence }

/-- The final confidence determination of both modes: the `num_sources`
chain followed by the zero-source sentinel block. -/
def finalizeConfidence (c : CombinedData) : CombinedData :=
  let num_sources := c.sources_consulted.length
  { c with
    confidence :=
      if num_sources ≥ 3 then "very high (cross-verified)"
      else if num_sources == 2 then "high (verified)"
      else if num_sources == 1 && c.sources_consulted.contains "Google Knowledge Graph" then
        "high"
      else if num_sources == 0 then "none"
      else c.confidence
    summary :=
      if num_sources == 0 then some "No information found in authoritative sources"
      else c.summary }

/-- Embeds `_get_comprehensive_info_sequential`: consult the providers
one at a time in priority order (OpenLibrary only for literary
entities), then determine the confidence tier. -/
def getComprehensiveInfoSequential (entity_name entity_type : String)
    (r : Responses) : CombinedData :=
  let c := initialCombined entity_name entity_type
  let c := applyKG c r.kg
  let c := applyDBpedia c r.dbpedia
  let c := applyWikidata c r.wikidata
  let c :=
    if includeOpenLibrary entity_name entity_type then applyOpenLibrary c r.openlibrary
    else c
  finalizeConfidence c

/-- The `results` dictionary of the parallel path, filled in completion
order: an association list over the arrival order of the futures. -/
def buildResults (r : Responses) (order : List Source) :
    List (Source × Option ProviderResult) :=
  order.map fun s => (s, r.result s)

/-- `results.get(source)`: look a source up in the results dictionary;
a source whose task was never submitted is absent. -/
def getResult (results : List (Source × Option ProviderResult)) (s : Source) :
    Option ProviderResult :=
  match results.find? (fun p => p.1 == s) with
  | some p => p.2
  | none => none

/-- Untag a Knowledge Graph result. -/
def asKG : Option ProviderResult → Option KGData
  | some (.kgRes d) => some d
  | _ => none

/-- Untag a DBpedia result. -/
def asDBpedia : Option ProviderResult → Option DBpediaData
  | some (.dbpediaRes d) => some d
  | _ => none

/-- Untag a Wikidata result. -/
def asWikidata : Option ProviderResult → Option WikidataData
  | some (.wikidataRes d) => some d
  | _ => none

/-- Untag an OpenLibrary result. -/
def asOpenLibrary : Option ProviderResult → Option OLData
  | some (.openlibraryRes d) => some d
  | _ => none

/-- Embeds `_get_comprehensive_info_parallel`: submit the selected
tasks, collect results as the futures complete (in arrival order
`order`), then merge from the results dictionary in fixed priority
order and determine the confidence tier. -/
def getComprehensiveInfoParallel (entity_name entity_type : String)
    (r : Responses) (order : List Source) : CombinedData :=
  let results := buildResults r order
  let c := initialCombined entity_name entity_type
  let c := applyKG c (asKG (getResult results .kg))
  let c := applyDBpedia c (asDBpedia (getResult results .dbpedia))
  let c := applyWikidata c (asWikidata (getResult results .wikidata))
  let c := applyOpenLibrary c (asOpenLibrary (getResult results .openlibrary))
  finalizeConfidence c

/-- Embeds `get_comprehensive_info`: dispatch on the `parallel` flag.
The Python body contains no `raise` and no unguarded operation that can
throw, so every path returns a value; the `Except` result makes the
absence of a caller-visible failure expressible. -/
def get_comprehensive_info (entity_name entity_type : String) (parallel : Bool)
    (r : Responses) (order : List Source) : Except String CombinedData :=
  if parallel then .ok (getComprehensiveInfoParallel entity_name entity_type r order)
  else .ok (getComprehensiveInfoSequential entity_name entity_type r)

/-! ## Analysis cache (`database.py`)

The `analysis_cache` table is modelled as a list of rows.  Timestamps
are `Int` seconds; the source compares ISO-8601 UTC strings, whose
lexicographic order is chronological, so `<` on `Int` models the
store's `gt` filter.  30 days is `30 * 86400` seconds. -/

/-- One row of the `analysis_cache` table. -/
structure AnalysisCacheEntry where
  id : Nat
  text_hash : String
  language : String
  original_text : String
  cultural_origin : String
  cross_cultural_connections : String
  modern_analogy : String
  timeline_events : List String
  geographic_locations : List String
  key_concepts : List String
  external_resources : List (String × String)
  hit_count : Nat
  created_at : Int
  last_accessed : Int
  deriving Repr, DecidableEq

/-- The analysis payload: the dictionary `get_cached_analysis` returns
on a hit, and the fields `save_analysis_cache` reads from
`analysis_result`. -/
structure AnalysisResult where
  cultural_origin : String
  cross_cultural_connections : String
  modern_analogy : String
  timeline_events : List String
  geographic_locations : List String
  key_concepts : List String
  external_resources : List (String × String)
  deriving Repr, DecidableEq

/-- The dictionary `get_cached_analysis` builds from a cached row. -/
def analysisResultOf (e : AnalysisCacheEntry) : AnalysisResult :=
  { cultural_origin := e.cultural_origin
    cross_cultural_connections := e.cross_cultural_connections
    modern_analogy := e.modern_analogy
    timeline_events := e.timeline_events
    geographic_locations := e.geographic_locations
    key_concepts := e.key_concepts
    external_resources := e.external_resources }

/-- The row filter of `get_cached_analysis`: same hash, same language,
`created_at` strictly newer than the 30-day cutoff. -/
def analysisRowMatches (text_hash language : String) (cutoff : Int)
    (e : AnalysisCacheEntry) : Bool :=
  e.text_hash == text_hash && e.language == language && cutoff < e.created_at

/-- Modelled from the spec: the SQL function `increment_cache_hit`
(invoked through `supabase.rpc` and not part of the repository) adds 1
to `hit_count` of the row with the given id.  `hit_count` increments
exactly once per cache-hit read. -/
def increment_cache_hit (store : List AnalysisCacheEntry) (cache_id : Nat) :
    List AnalysisCacheEntry :=
  store.map fun e => if e.id == cache_id then { e with hit_count := e.hit_count + 1 } else e

/-- Embeds `database.get_cached_analysis`: select the rows for the
hashed key whose `created_at` beats the 30-day cutoff; on a hit,
best-effort increment the hit counter (`incrementOk` tells whether that
side call succeeds; its failure is swallowed) and return the analysis
fields of the row.  The returned list is the table after the read. -/
def get_cached_analysis (store : List AnalysisCacheEntry) (now : Int)
    (text language : String) (incrementOk : Bool) :
    Option AnalysisResult × List AnalysisCacheEntry :=
  let text_hash := generate_text_hash text language
  let cutoff := now - 30 * 86400
  match store.filter (analysisRowMatches text_hash language cutoff) with
  | [] => (none, store)
  | cached_entry :: _ =>
    let store' := if incrementOk then increment_cache_hit store cached_entry.id else store
    (some (analysisResultOf cached_entry), store')

/-- The key filter of the upsert in `save_analysis_cache`:
`on_conflict='text_hash,language'`. -/
def analysisKeyMatches (text_hash language : String) (e : AnalysisCacheEntry) : Bool :=
  e.text_hash == text_hash && e.language == language

/-- The `cache_data` dictionary `save_analysis_cache` builds: the first
5000 characters of the text as verification prefix, a zero hit count,
and both timestamps set to the write time. -/
def analysisCacheData (id : Nat) (now : Int) (text language : String)
    (analysis_result : AnalysisResult) : AnalysisCacheEntry :=
  { id := id
    text_hash := generate_text_hash text language
    language := language
    original_text := text.take 5000
    cultural_origin := analysis_result.cultural_origin
    cross_cultural_connections := analysis_result.cross_cultural_connections
    modern_analogy := analysis_result.modern_analogy
    timeline_events := analysis_result.timeline_events
    geographic_locations := analysis_result.geographic_locations
    key_concepts := analysis_result.key_concepts
    external_resources := analysis_result.external_resources
    hit_count := 0
    created_at := now
    last_accessed := now }

/-- Embeds `database.save_analysis_cache`: build the fresh row and
upsert it on `(text_hash, language)` — replace the conflicting row's
columns keeping its id, else insert with the store's next id. -/
def save_analysis_cache (store : List AnalysisCacheEntry) (now : Int) (nextId : Nat)
    (text language : String) (analysis_result : AnalysisResult) :
    List AnalysisCacheEntry :=
  let text_hash := generate_text_hash text language
  if store.any (analysisKeyMatches text_hash language) then
    store.map fun e =>
      if analysisKeyMatches text_hash language e then
        analysisCacheData e.id now text language analysis_result
      else e
  else store ++ [analysisCacheData nextId now text language analysis_result]

/-- Modelled from the spec: the `analysis_cache_stats` SQL view behind
`get_cache_statistics` (not part of the repository) reports
`total_cached_entries` as the number of rows of the table, expired rows
included. -/
def total_cached_entries (store : List AnalysisCacheEntry) : Nat := store.length

/-- Modelled from the spec: the SQL function `cleanup_analysis_cache`
behind `cleanup_expired_cache` (invoked through `supabase.rpc` and not
part of the repository) removes the entries the TTL read treats as
expired — `created_at` at or beyond the 30-day threshold — and returns
the count removed. -/
def cleanup_expired_cache (store : List AnalysisCacheEntry) (now : Int) :
    List AnalysisCacheEntry × Nat :=
  let cutoff := now - 30 * 86400
  let kept := store.filter fun e => cutoff < e.created_at
  (kept, store.length - kept.length)

/-! ## Entity cache and enrichment orchestration
(`database.py`, `nlp_service.py`) -/

/-- One row of the `entity_cache` table, as built by
`NLPEnrichmentService.enrich_entity`'s `cache_data`. -/
structure EntityCacheEntry where
  entity_name : String
  entity_type : String
  summary : Option String
  url : Option String
  categories : List String
  cultural_significance : String
  wikidata : Option String
  source : Option String
  created_at : Int
  deriving Repr, DecidableEq

/-- The enrichment dictionary `wikipedia_service.enrich_entity` returns,
restricted to the keys the orchestrator reads.  `summary`, `url`,
`wikidata` and `source` start as `None` in the source and may stay so. -/
structure WikiEnrichment where
  summary : Option String
  url : Option String
  categories : List String
  cultural_significance : String
  wikidata : Option String
  source : Option String
  deriving Repr, DecidableEq

/-- The key filter of the `entity_cache` queries: exact, case-sensitive
match on both columns. -/
def entityKeyMatches (entity_name entity_type : String) (e : EntityCacheEntry) : Bool :=
  e.entity_name == entity_name && e.entity_type == entity_type

/-- Embeds `database.get_cached_entity`: the first row matching the
composite key, or absent. -/
def get_cached_entity (store : List EntityCacheEntry) (entity_name entity_type : String) :
    Option EntityCacheEntry :=
  (store.filter (entityKeyMatches entity_name entity_type)).head?

/-- Embeds `database.save_entity_cache`: upsert on
`on_conflict='entity_name,entity_type'` — replace the conflicting row,
else insert. -/
def save_entity_cache (store : List EntityCacheEntry) (e : EntityCacheEntry) :
    List EntityCacheEntry :=
  if store.any (entityKeyMatches e.entity_name e.entity_type) then
    store.map fun x => if entityKeyMatches e.entity_name e.entity_type x then e else x
  else store ++ [e]

/-- Python's truthiness of `enrichment.get("summary")`. -/
def pyTruthyStr : Option String → Bool
  | none => false
  | some s => !(s == "")

/-- What `NLPEnrichmentService.enrich_entity` returns: either the cached
row or the freshly computed enrichment. -/
inductive EnrichOutcome where
  | cached (e : EntityCacheEntry)
  | fresh (e : WikiEnrichment)
  deriving Repr, DecidableEq

/-- The `cache_data` dictionary `NLPEnrichmentService.enrich_entity`
persists on a successful enrichment. -/
def entityCacheData (entity_text entity_type : String) (now : Int)
    (enrichment : WikiEnrichment) : EntityCacheEntry :=
  { entity_name := entity_text
    entity_type := entity_type
    summary := enrichment.summary
    url := enrichment.url
    categories := enrichment.categories
    cultural_significance := enrichment.cultural_significance
    wikidata := enrichment.wikidata
    source := enrichment.source
    created_at := now }

/-- Embeds `NLPEnrichmentService.enrich_entity`: return the cached row
on a cache hit; otherwise take the live enrichment (`enrichment`, the
result of the provider pipeline, is an input of the model) and persist
it if and only if its summary is truthy.  The returned list is the
entity cache after the call. -/
def enrich_entity (store : List EntityCacheEntry) (now : Int)
    (entity_text entity_type : String) (use_cache : Bool)
    (enrichment : WikiEnrichment) : EnrichOutcome × List EntityCacheEntry :=
  match if use_cache then get_cached_entity store entity_text entity_type else none with
  | some cached => (.cached cached, store)
  | none =>
    if pyTruthyStr enrichment.summary then
      (.fresh enrichment,
        save_entity_cache store (entityCacheData entity_text entity_type now enrichment))
    else (.fresh enrichment, store)

/-! ## Claim-side specification functions -/

/-- The confidence-tier table as the code realizes it: 0 responding
sources map to `"none"`, a single responding source maps to `"high"`
for KnowledgeGraph and for DBpedia and to `"medium"` otherwise, two map
to `"high (verified)"`, three or more to
`"very high (cross-verified)"`. -/
def specConfidenceTier (kgIn dbIn wdIn olIn : Bool) : String :=
  let n := (if kgIn then 1 else 0) + (if dbIn then 1 else 0) +
    (if wdIn then 1 else 0) + (if olIn then 1 else 0)
  if 3 ≤ n then "very high (cross-verified)"
  else if n == 2 then "high (verified)"
  else if n == 1 then if kgIn || dbIn then "high" else "medium"
  else "none"

/-- The first non-empty string of a list, if any. -/
def firstNonEmpty : List String → Option String
  | [] => none
  | s :: rest => if s = "" then firstNonEmpty rest else some s

/-- Collapse a Python-falsy optional string (absent, `None` or `""`) to
`none`: the truthiness view under which the source reads these fields. -/
def truthy : Option String → Option String
  | none => none
  | some s => if s = "" then none else some s

/-! ## Helper lemmas: the parallel path agrees with the sequential path -/

theorem getResult_build (r : Responses) (order : List Source) (s : Source) :
    getResult (buildResults r order) s = if s ∈ order then r.result s else none := by
  induction order with
  | nil => simp [buildResults, getResult]
  | cons a rest ih =>
    by_cases h : a = s
    · subst h
      simp [buildResults, getResult, List.find?_cons_of_pos]
    · have hstep : getResult (buildResults r (a :: rest)) s
          = getResult (buildResults r rest) s := by
        simp [buildResults, getResult, List.find?_cons_of_neg, h]
      have h' : ¬s = a := fun hs => h hs.symm
      rw [hstep, ih]
      simp [List.mem_cons, h']

theorem kg_mem_selected (n t : String) : Source.kg ∈ selectedTasks n t := by
  simp [selectedTasks]

theorem dbpedia_mem_selected (n t : String) : Source.dbpedia ∈ selectedTasks n t := by
  simp [selectedTasks]

theorem wikidata_mem_selected (n t : String) : Source.wikidata ∈ selectedTasks n t := by
  simp [selectedTasks]

theorem ol_mem_selected (n t : String) :
    Source.openlibrary ∈ selectedTasks n t ↔ includeOpenLibrary n t = true := by
  by_cases h : includeOpenLibrary n t <;> simp [selectedTasks, h]

theorem applyOpenLibrary_none (c : CombinedData) : applyOpenLibrary c none = c := rfl

theorem asOpenLibrary_none : asOpenLibrary none = none := rfl

theorem asKG_result (r : Responses) : asKG (r.result .kg) = r.kg := by
  cases h : r.kg <;> simp [Responses.result, asKG, h]

theorem asDBpedia_result (r : Responses) : asDBpedia (r.result .dbpedia) = r.dbpedia := by
  cases h : r.dbpedia <;> simp [Responses.result, asDBpedia, h]

theorem asWikidata_result (r : Responses) : asWikidata (r.result .wikidata) = r.wikidata := by
  cases h : r.wikidata <;> simp [Responses.result, asWikidata, h]

theorem asOpenLibrary_result (r : Responses) :
    asOpenLibrary (r.result .openlibrary) = r.openlibrary := by
  cases h : r.openlibrary <;> simp [Responses.result, asOpenLibrary, h]

/-- Whatever order the futures complete in, the parallel path merges the
same provider data as the sequential path and produces the same
combined record. -/
theorem parallel_eq_sequential (entity_name entity_type : String) (r : Responses)
    (order : List Source) (h : order.Perm (selectedTasks entity_name entity_type)) :
    getComprehensiveInfoParallel entity_name entity_type r order =
      getComprehensiveInfoSequential entity_name entity_type r := by
  have hmem : ∀ s : Source, (s ∈ order) = (s ∈ selectedTasks entity_name entity_type) :=
    fun s => propext h.mem_iff
  by_cases hol : includeOpenLibrary entity_name entity_type = true <;>
    simp [getComprehensiveInfoParallel, getComprehensiveInfoSequential, getResult_build,
      hmem, kg_mem_selected, dbpedia_mem_selected, wikidata_mem_selected, ol_mem_selected,
      hol, asKG_result, asDBpedia_result, asWikidata_result, asOpenLibrary_result,
      applyOpenLibrary_none, asOpenLibrary_none]

/-! ## Helper lemmas: field-by-field characterization of the merge -/

theorem seq_confidence_eq (entity_name entity_type : String) (r : Responses) :
    (getComprehensiveInfoSequential entity_name entity_type r).confidence =
      specConfidenceTier r.kg.isSome r.dbpedia.isSome r.wikidata.isSome
        (includeOpenLibrary entity_name entity_type && r.openlibrary.isSome) := by
  rcases r with ⟨kg, db, wd, ol⟩
  rcases hol : includeOpenLibrary entity_name entity_type <;>
    rcases kg with _ | k <;> rcases db with _ | d <;> rcases wd with _ | w <;>
      rcases ol with _ | o <;>
        simp only [getComprehensiveInfoSequential, hol, Bool.false_eq_true, if_false, if_true,
          Option.isSome_none, Option.isSome_some, Bool.false_and, Bool.true_and,
          Bool.and_false, Bool.and_true] <;> rfl

theorem seq_description_eq (entity_name entity_type : String) (r : Responses) :
    truthy (getComprehensiveInfoSequential entity_name entity_type r).description =
      firstNonEmpty ((r.kg.map KGData.description).toList ++
        (r.wikidata.map WikidataData.description).toList) := by
  rcases r with ⟨kg, db, wd, ol⟩
  rcases hol : includeOpenLibrary entity_name entity_type <;>
    rcases kg with _ | k <;> rcases db with _ | d <;> rcases wd with _ | w <;>
      rcases ol with _ | o <;>
        simp [getComprehensiveInfoSequential, initialCombined, applyKG, applyDBpedia,
          applyWikidata, applyOpenLibrary, finalizeConfidence, hol, truthy, firstNonEmpty,
          optFalsy, pyOr] <;>
        split_ifs <;> simp_all [firstNonEmpty]

theorem seq_url_eq (entity_name entity_type : String) (r : Responses) :
    truthy (getComprehensiveInfoSequential entity_name entity_type r).url =
      firstNonEmpty ((r.kg.map KGData.url).toList ++
        (r.wikidata.map (fun w => w.wikipedia_url.getD "")).toList) := by
  rcases r with ⟨kg, db, wd, ol⟩
  rcases hol : includeOpenLibrary entity_name entity_type <;>
    rcases kg with _ | k <;> rcases db with _ | d <;> rcases wd with _ | w <;>
      rcases ol with _ | o <;>
        (try rcases w with ⟨wn, wid, wl, wde, wu, _ | wwu⟩) <;>
        simp [getComprehensiveInfoSequential, initialCombined, applyKG, applyDBpedia,
          applyWikidata, applyOpenLibrary, finalizeConfidence, hol, truthy, firstNonEmpty,
          optFalsy, pyOr] <;>
        split_ifs <;> simp_all [firstNonEmpty]

theorem seq_image_eq (entity_name entity_type : String) (r : Responses) :
    truthy (getComprehensiveInfoSequential entity_name entity_type r).image_url =
      firstNonEmpty ((r.kg.map KGData.image_url).toList) := by
  rcases r with ⟨kg, db, wd, ol⟩
  rcases hol : includeOpenLibrary entity_name entity_type <;>
    rcases kg with _ | k <;> rcases db with _ | d <;> rcases wd with _ | w <;>
      rcases ol with _ | o <;>
        simp [getComprehensiveInfoSequential, initialCombined, applyKG, applyDBpedia,
          applyWikidata, applyOpenLibrary, finalizeConfidence, hol, truthy, firstNonEmpty,
          optFalsy, pyOr]

theorem seq_summary_eq (entity_name entity_type : String) (r : Responses)
    (hsome : r.kg.isSome ∨ r.dbpedia.isSome ∨ r.wikidata.isSome ∨
      (includeOpenLibrary entity_name entity_type = true ∧ r.openlibrary.isSome)) :
    truthy (getComprehensiveInfoSequential entity_name entity_type r).summary =
      firstNonEmpty ((r.kg.map KGData.detailed_description).toList ++
        (r.kg.map KGData.description).toList ++
        (r.dbpedia.map (fun d => d.abstract.take 500)).toList) := by
  rcases r with ⟨kg, db, wd, ol⟩
  rcases hol : includeOpenLibrary entity_name entity_type <;>
    rcases kg with _ | k <;> rcases db with _ | d <;> rcases wd with _ | w <;>
      rcases ol with _ | o <;>
        simp_all [getComprehensiveInfoSequential, initialCombined, applyKG, applyDBpedia,
          applyWikidata, applyOpenLibrary, finalizeConfidence, hol, truthy, firstNonEmpty,
          optFalsy, pyOr] <;>
        split_ifs <;> simp_all [firstNonEmpty]

/-! ## Concrete provider data used by counterexamples and witnesses -/

/-- A DBpedia partial record with a non-empty abstract. -/
def dbParis : DBpediaData :=
  { entity_name := "Paris"
    abstract := "Paris is the capital of France."
    resource_uri := "http://dbpedia.org/resource/Paris" }

/-- A Wikidata partial record with a non-empty description. -/
def wdParis : WikidataData :=
  { entity_name := "Paris"
    wikidata_id := "Q90"
    label := "Paris"
    description := "capital of France"
    url := "https://www.wikidata.org/wiki/Q90"
    wikipedia_url := some "https://en.wikipedia.org/wiki/Paris" }

/-- A Knowledge Graph partial record with a non-empty long-form text. -/
def kgGandhi : KGData :=
  { entity_name := "Mahatma Gandhi"
    description := "Indian independence leader"
    detailed_description := "Mohandas Karamchand Gandhi led the Indian independence movement."
    url := "https://en.wikipedia.org/wiki/Mahatma_Gandhi"
    image_url := "https://example.org/gandhi.jpg"
    types := ["Person"]
    confidence := 900 }

/-- An OpenLibrary partial record. -/
def olTrial : OLData :=
  { title := "The Trial"
    author := ["Franz Kafka"]
    first_publish_year := "1925"
    subject := ["Fiction"]
    isbn := ["9780805209990"]
    cover_url := none
    url := "https://openlibrary.org/works/OL1A"
    }

/-- Responses where only DBpedia answers. -/
def rOnlyDB : Responses :=
  { kg := none, dbpedia := some dbParis, wikidata := none, openlibrary := none }

/-- Responses where only Wikidata answers. -/
def rOnlyWD : Responses :=
  { kg := none, dbpedia := none, wikidata := some wdParis, openlibrary := none }

/-- Responses where only DBpedia and OpenLibrary answer. -/
def rDBOL : Responses :=
  { kg := none, dbpedia := some dbParis, wikidata := none, openlibrary := some olTrial }

/-- Responses where Knowledge Graph and Wikidata answer and the others
fail (the spec's end-to-end scenario). -/
def rKGWD : Responses :=
  { kg := some kgGandhi, dbpedia := none, wikidata := some wdParis, openlibrary := none }

/-! ## Claims -/

/-- Claim C1, counterexample: when exactly one source responds and it is
DBpedia — a responding source other than KnowledgeGraph — the combined
record's confidence is `"high"`, not the `"medium"` the claimed table
assigns to every non-KnowledgeGraph single source. -/
theorem claim1_counterexample :
    (getComprehensiveInfoSequential "Paris" "GPE" rOnlyDB).sources_consulted = ["DBpedia"] ∧
    (getComprehensiveInfoSequential "Paris" "GPE" rOnlyDB).confidence = "high" ∧
    (getComprehensiveInfoSequential "Paris" "GPE" rOnlyDB).confidence ≠ "medium" := by
  refine ⟨rfl, rfl, ?_⟩
  decide

/-- Claim C1 (amended): in both parallel and sequential mode, the
confidence tier of the combined record is the following function of the
responding consulted sources: 0 responding sources yield `"none"`;
exactly 1 responding source yields `"high"` when it is KnowledgeGraph
and also when it is DBpedia, and `"medium"` when it is Wikidata or
OpenLibrary; exactly 2 yield `"high (verified)"`; 3 or more yield
`"very high (cross-verified)"`. -/
theorem claim1_confidence_tier (entity_name entity_type : String) (r : Responses)
    (order : List Source) (h : order.Perm (selectedTasks entity_name entity_type)) :
    (getComprehensiveInfoSequential entity_name entity_type r).confidence =
      specConfidenceTier r.kg.isSome r.dbpedia.isSome r.wikidata.isSome
        (includeOpenLibrary entity_name entity_type && r.openlibrary.isSome) ∧
    (getComprehensiveInfoParallel entity_name entity_type r order).confidence =
      specConfidenceTier r.kg.isSome r.dbpedia.isSome r.wikidata.isSome
        (includeOpenLibrary entity_name entity_type && r.openlibrary.isSome) :=
  ⟨seq_confidence_eq entity_name entity_type r, by
    rw [parallel_eq_sequential entity_name entity_type r order h]
    exact seq_confidence_eq entity_name entity_type r⟩

/-- Claim C1, witness: the amended tier table at a concrete lookup with
two responding sources, in both modes. -/
theorem claim1_witness :
    (getComprehensiveInfoSequential "Mahatma Gandhi" "PERSON" rKGWD).confidence =
      specConfidenceTier rKGWD.kg.isSome rKGWD.dbpedia.isSome rKGWD.wikidata.isSome
        (includeOpenLibrary "Mahatma Gandhi" "PERSON" && rKGWD.openlibrary.isSome) ∧
    (getComprehensiveInfoParallel "Mahatma Gandhi" "PERSON" rKGWD
        [Source.wikidata, Source.kg, Source.dbpedia]).confidence =
      specConfidenceTier rKGWD.kg.isSome rKGWD.dbpedia.isSome rKGWD.wikidata.isSome
        (includeOpenLibrary "Mahatma Gandhi" "PERSON" && rKGWD.openlibrary.isSome) :=
  claim1_confidence_tier "Mahatma Gandhi" "PERSON" rKGWD
    [Source.wikidata, Source.kg, Source.dbpedia] (by decide)

/-- Claim C2, counterexample: the aggregator does not raise on an empty
entity name — there is no input validation, so the call returns a
combined record instead of the caller-visible error the claim demands
for empty input. -/
theorem claim2_counterexample :
    (get_comprehensive_info "" "PERSON" false
      { kg := none, dbpedia := none, wikidata := none, openlibrary := none } []).isOk
      = true := rfl

/-- Claim C2 (amended): the aggregator's comprehensive-info call never
raises a caller-visible error — not on any subset of provider failures,
timeouts or malformed data (all absorbed inside the fetchers), and not
on an empty entity name either, since the input is never validated. -/
theorem claim2_never_raises (entity_name entity_type : String) (parallel : Bool)
    (r : Responses) (order : List Source) :
    ∃ c, get_comprehensive_info entity_name entity_type parallel r order = Except.ok c := by
  cases parallel <;> exact ⟨_, rfl⟩

/-- Claim C3, counterexample: when only DBpedia and OpenLibrary respond,
the combined record's description is absent — DBpedia's data does not
fill the description field at all, contrary to the claimed
priority-order gap-filling. -/
theorem claim3_counterexample :
    (getComprehensiveInfoSequential "The Trial" "WORK_OF_ART" rDBOL).sources_consulted =
      ["DBpedia", "OpenLibrary"] ∧
    (getComprehensiveInfoSequential "The Trial" "WORK_OF_ART" rDBOL).description = none := by
  exact ⟨rfl, rfl⟩

/-- Claim C3 (amended): in both modes, `description`, `url` and
`image_url` each take the first non-empty value in priority order, but
over a reduced contributor set: `description` from KnowledgeGraph then
Wikidata, `url` from KnowledgeGraph then Wikidata's Wikipedia sitelink,
`image_url` from KnowledgeGraph only; DBpedia and OpenLibrary never
contribute to these three fields. -/
theorem claim3_field_fill (entity_name entity_type : String) (r : Responses)
    (order : List Source) (h : order.Perm (selectedTasks entity_name entity_type)) :
    truthy (getComprehensiveInfoSequential entity_name entity_type r).description =
      firstNonEmpty ((r.kg.map KGData.description).toList ++
        (r.wikidata.map WikidataData.description).toList) ∧
    truthy (getComprehensiveInfoSequential entity_name entity_type r).url =
      firstNonEmpty ((r.kg.map KGData.url).toList ++
        (r.wikidata.map (fun w => w.wikipedia_url.getD "")).toList) ∧
    truthy (getComprehensiveInfoSequential entity_name entity_type r).image_url =
      firstNonEmpty ((r.kg.map KGData.image_url).toList) ∧
    truthy (getComprehensiveInfoParallel entity_name entity_type r order).description =
      firstNonEmpty ((r.kg.map KGData.description).toList ++
        (r.wikidata.map WikidataData.description).toList) ∧
    truthy (getComprehensiveInfoParallel entity_name entity_type r order).url =
      firstNonEmpty ((r.kg.map KGData.url).toList ++
        (r.wikidata.map (fun w => w.wikipedia_url.getD "")).toList) ∧
    truthy (getComprehensiveInfoParallel entity_name entity_type r order).image_url =
      firstNonEmpty ((r.kg.map KGData.image_url).toList) := by
  rw [parallel_eq_sequential entity_name entity_type r order h]
  exact ⟨seq_description_eq entity_name entity_type r, seq_url_eq entity_name entity_type r,
    seq_image_eq entity_name entity_type r, seq_description_eq entity_name entity_type r,
    seq_url_eq entity_name entity_type r, seq_image_eq entity_name entity_type r⟩

/-- Claim C3, witness: the amended field-fill at a concrete lookup where
KnowledgeGraph and Wikidata respond, in both modes. -/
theorem claim3_witness :
    truthy (getComprehensiveInfoSequential "Mahatma Gandhi" "PERSON" rKGWD).description =
      firstNonEmpty ((rKGWD.kg.map KGData.description).toList ++
        (rKGWD.wikidata.map WikidataData.description).toList) ∧
    truthy (getComprehensiveInfoSequential "Mahatma Gandhi" "PERSON" rKGWD).url =
      firstNonEmpty ((rKGWD.kg.map KGData.url).toList ++
        (rKGWD.wikidata.map (fun w => w.wikipedia_url.getD "")).toList) ∧
    truthy (getComprehensiveInfoSequential "Mahatma Gandhi" "PERSON" rKGWD).image_url =
      firstNonEmpty ((rKGWD.kg.map KGData.image_url).toList) ∧
    truthy (getComprehensiveInfoParallel "Mahatma Gandhi" "PERSON" rKGWD
        (selectedTasks "Mahatma Gandhi" "PERSON")).description =
      firstNonEmpty ((rKGWD.kg.map KGData.description).toList ++
        (rKGWD.wikidata.map WikidataData.description).toList) ∧
    truthy (getComprehensiveInfoParallel "Mahatma Gandhi" "PERSON" rKGWD
        (selectedTasks "Mahatma Gandhi" "PERSON")).url =
      firstNonEmpty ((rKGWD.kg.map KGData.url).toList ++
        (rKGWD.wikidata.map (fun w => w.wikipedia_url.getD "")).toList) ∧
    truthy (getComprehensiveInfoParallel "Mahatma Gandhi" "PERSON" rKGWD
        (selectedTasks "Mahatma Gandhi" "PERSON")).image_url =
      firstNonEmpty ((rKGWD.kg.map KGData.image_url).toList) :=
  claim3_field_fill "Mahatma Gandhi" "PERSON" rKGWD
    (selectedTasks "Mahatma Gandhi" "PERSON") (List.Perm.refl _)

/-- Claim C4, counterexample: when only Wikidata responds with a
non-empty description, the combined record's summary is absent, not
that description — Wikidata never contributes to the summary. -/
theorem claim4_counterexample :
    (getComprehensiveInfoSequential "Paris" "GPE" rOnlyWD).sources_consulted = ["Wikidata"] ∧
    (getComprehensiveInfoSequential "Paris" "GPE" rOnlyWD).description =
      some "capital of France" ∧
    (getComprehensiveInfoSequential "Paris" "GPE" rOnlyWD).summary = none := by
  exact ⟨rfl, rfl, rfl⟩

/-- Claim C4 (amended): in both modes, with at least one responding
consulted provider the combined record's summary is the first non-empty
text among KnowledgeGraph's long-form text, then KnowledgeGraph's
description, then DBpedia's abstract truncated to 500 characters;
Wikidata and OpenLibrary never contribute to the summary. -/
theorem claim4_summary (entity_name entity_type : String) (r : Responses)
    (order : List Source) (h : order.Perm (selectedTasks entity_name entity_type))
    (hsome : r.kg.isSome ∨ r.dbpedia.isSome ∨ r.wikidata.isSome ∨
      (includeOpenLibrary entity_name entity_type = true ∧ r.openlibrary.isSome)) :
    truthy (getComprehensiveInfoSequential entity_name entity_type r).summary =
      firstNonEmpty ((r.kg.map KGData.detailed_description).toList ++
        (r.kg.map KGData.description).toList ++
        (r.dbpedia.map (fun d => d.abstract.take 500)).toList) ∧
    truthy (getComprehensiveInfoParallel entity_name entity_type r order).summary =
      firstNonEmpty ((r.kg.map KGData.detailed_description).toList ++
        (r.kg.map KGData.description).toList ++
        (r.dbpedia.map (fun d => d.abstract.take 500)).toList) := by
  rw [parallel_eq_sequential entity_name entity_type r order h]
  exact ⟨seq_summary_eq entity_name entity_type r hsome,
    seq_summary_eq entity_name entity_type r hsome⟩

/-- Claim C4, witness: the amended summary rule at a concrete lookup
where KnowledgeGraph and Wikidata respond, in both modes. -/
theorem claim4_witness :
    truthy (getComprehensiveInfoSequential "Mahatma Gandhi" "PERSON" rKGWD).summary =
      firstNonEmpty ((rKGWD.kg.map KGData.detailed_description).toList ++
        (rKGWD.kg.map KGData.description).toList ++
        (rKGWD.dbpedia.map (fun d => d.abstract.take 500)).toList) ∧
    truthy (getComprehensiveInfoParallel "Mahatma Gandhi" "PERSON" rKGWD
        (selectedTasks "Mahatma Gandhi" "PERSON")).summary =
      firstNonEmpty ((rKGWD.kg.map KGData.detailed_description).toList ++
        (rKGWD.kg.map KGData.description).toList ++
        (rKGWD.dbpedia.map (fun d => d.abstract.take 500)).toList) :=
  claim4_summary "Mahatma Gandhi" "PERSON" rKGWD
    (selectedTasks "Mahatma Gandhi" "PERSON") (List.Perm.refl _) (Or.inl (by decide))

/-- Claim C9: given the same per-provider responses, the parallel-mode
path — whatever order its concurrent tasks complete in — and the
sequential-mode path produce the same combined record, every field
included. -/
theorem claim9_modes_agree (entity_name entity_type : String) (r : Responses)
    (order : List Source) (h : order.Perm (selectedTasks entity_name entity_type)) :
    getComprehensiveInfoParallel entity_name entity_type r order =
      getComprehensiveInfoSequential entity_name entity_type r :=
  parallel_eq_sequential entity_name entity_type r order h

/-- Claim C9, witness: mode agreement at a concrete lookup, with the
parallel results arriving in reverse priority order. -/
theorem claim9_witness :
    getComprehensiveInfoParallel "Mahatma Gandhi" "PERSON" rKGWD
        [Source.wikidata, Source.dbpedia, Source.kg] =
      getComprehensiveInfoSequential "Mahatma Gandhi" "PERSON" rKGWD :=
  claim9_modes_agree "Mahatma Gandhi" "PERSON" rKGWD
    [Source.wikidata, Source.dbpedia, Source.kg] (by decide)

/-- Claim C5: the analysis-cache text hash is SHA-256 of the normalized
text joined with the language: texts with the same normalization
(differing only in surrounding whitespace or letter case) hash equally
for every language, the spec's whitespace/case example holds, and the
language code is not normalized — the same text under language codes
differing only in case hashes differently. -/
theorem claim5_text_hash :
    (∀ t1 t2 L, pyNormalize t1 = pyNormalize t2 →
      generate_text_hash t1 L = generate_text_hash t2 L) ∧
    generate_text_hash "  Hello World  " "en" = generate_text_hash "hello world" "en" ∧
    generate_text_hash "hello world" "en" ≠ generate_text_hash "hello world" "EN" := by
  refine ⟨?_, by decide, by decide⟩
  intro t1 t2 L h
  unfold generate_text_hash
  rw [h]

/-- Claim C5, witness: the normalization-invariance part at a concrete
pair of texts differing in case and surrounding whitespace. -/
theorem claim5_witness :
    pyNormalize " AbC" = pyNormalize "abc " ∧
    generate_text_hash " AbC" "en" = generate_text_hash "abc " "en" :=
  ⟨by decide, claim5_text_hash.1 " AbC" "abc " "en" (by decide)⟩

/-- An analysis-cache row whose key is the hash of ("t", "en"). -/
def e30 : AnalysisCacheEntry :=
  { id := 1
    text_hash := generate_text_hash "t" "en"
    language := "en"
    original_text := "t"
    cultural_origin := "o"
    cross_cultural_connections := "c"
    modern_analogy := "m"
    timeline_events := []
    geographic_locations := []
    key_concepts := []
    external_resources := []
    hit_count := 0
    created_at := 0
    last_accessed := 0 }

/-- Claim C6, counterexample: an entry exactly 30 days old is reported
absent — the TTL filter keeps only rows strictly newer than the cutoff,
while the claim says an entry 30 days old is still returned. -/
theorem claim6_counterexample :
    (get_cached_analysis [e30] (30 * 86400) "t" "en" true).1 = none := by
  simp [get_cached_analysis, analysisRowMatches, e30]

/-- Claim C6 (amended): a read for a key whose stored entry is 30 days
old or older returns absent without deleting the row — it stays in the
table and is still counted by the statistics until the purge removes
it — while an entry strictly newer than 30 days is returned with its
stored analysis fields. -/
theorem claim6_ttl (e : AnalysisCacheEntry) (now : Int) (text language : String)
    (inc : Bool) (hhash : e.text_hash = generate_text_hash text language)
    (hlang : e.language = language) :
    (e.created_at ≤ now - 30 * 86400 →
      (get_cached_analysis [e] now text language inc).1 = none ∧
      (get_cached_analysis [e] now text language inc).2 = [e] ∧
      total_cached_entries (get_cached_analysis [e] now text language inc).2 = 1 ∧
      (cleanup_expired_cache [e] now).1 = [] ∧
      (cleanup_expired_cache [e] now).2 = 1) ∧
    (now - 30 * 86400 < e.created_at →
      (get_cached_analysis [e] now text language inc).1 = some (analysisResultOf e)) := by
  constructor
  · intro hle
    have hcond : analysisRowMatches (generate_text_hash text language) language
        (now - 30 * 86400) e = false := by
      unfold analysisRowMatches
      rw [hhash, hlang]
      simp only [beq_self_eq_true, Bool.true_and]
      exact decide_eq_false (by omega)
    have hdec : decide (now - 30 * 86400 < e.created_at) = false :=
      decide_eq_false (by omega)
    simp only [get_cached_analysis, cleanup_expired_cache, total_cached_entries,
      List.filter_cons, List.filter_nil, hcond, Bool.false_eq_true, if_false,
      hdec, List.length_cons, List.length_nil]
    exact ⟨trivial, trivial, trivial, trivial, trivial⟩
  · intro hlt
    have hcond : analysisRowMatches (generate_text_hash text language) language
        (now - 30 * 86400) e = true := by
      unfold analysisRowMatches
      rw [hhash, hlang]
      simp only [beq_self_eq_true, Bool.true_and]
      exact decide_eq_true hlt
    simp only [get_cached_analysis, List.filter_cons, List.filter_nil, hcond, if_true]

/-- Claim C6, witness: at the boundary entry, the read is absent, the
row survives the read and the statistics, and the purge removes it;
a strictly fresh entry is returned with its stored fields. -/
theorem claim6_witness :
    (get_cached_analysis [e30] (30 * 86400 + 5) "t" "en" true).1 = none ∧
    (get_cached_analysis [e30] (30 * 86400 + 5) "t" "en" true).2 = [e30] ∧
    total_cached_entries (get_cached_analysis [e30] (30 * 86400 + 5) "t" "en" true).2 = 1 ∧
    (cleanup_expired_cache [e30] (30 * 86400 + 5)).2 = 1 ∧
    (get_cached_analysis [e30] 100 "t" "en" true).1 = some (analysisResultOf e30) := by
  have h := claim6_ttl e30 (30 * 86400 + 5) "t" "en" true rfl rfl
  have h2 := claim6_ttl e30 100 "t" "en" true rfl rfl
  have hexp := h.1 (by decide)
  exact ⟨hexp.1, hexp.2.1, hexp.2.2.1, hexp.2.2.2.2, h2.2 (by decide)⟩

/-- Claim C7: on an analysis-cache hit the hit counter of the hit row is
incremented by exactly one, best-effort: the returned analysis record is
the same whether or not the increment side call succeeds, a failing
increment leaves the table untouched, and a read never changes anything
but the hit counter. -/
theorem claim7_hit_best_effort (store : List AnalysisCacheEntry) (now : Int)
    (text language : String) :
    (get_cached_analysis store now text language false).1 =
      (get_cached_analysis store now text language true).1 ∧
    (get_cached_analysis store now text language false).2 = store ∧
    (∀ e : AnalysisCacheEntry, e.text_hash = generate_text_hash text language →
      e.language = language → now - 30 * 86400 < e.created_at →
      (get_cached_analysis [e] now text language true).2 =
        [{ e with hit_count := e.hit_count + 1 }]) := by
  refine ⟨?_, ?_, ?_⟩
  · simp only [get_cached_analysis]
    generalize List.filter _ store = res
    cases res <;> simp
  · simp only [get_cached_analysis]
    generalize List.filter _ store = res
    cases res <;> simp
  · intro e hhash hlang hlt
    have hcond : analysisRowMatches (generate_text_hash text language) language
        (now - 30 * 86400) e = true := by
      unfold analysisRowMatches
      rw [hhash, hlang]
      simp only [beq_self_eq_true, Bool.true_and]
      exact decide_eq_true hlt
    simp only [get_cached_analysis, List.filter_cons, List.filter_nil, hcond, if_true,
      increment_cache_hit, List.map_cons, List.map_nil, beq_self_eq_true]

/-- A fresh analysis-cache row with an accumulated hit count. -/
def e31 : AnalysisCacheEntry := { e30 with created_at := 1, hit_count := 41 }

/-- Claim C7, witness: at a concrete fresh row, the returned record is
identical whether the increment succeeds or fails, the failing read
leaves the table unchanged, and the successful read bumps the hit count
by exactly one. -/
theorem claim7_witness :
    (get_cached_analysis [e31] (30 * 86400) "t" "en" false).1 =
      (get_cached_analysis [e31] (30 * 86400) "t" "en" true).1 ∧
    (get_cached_analysis [e31] (30 * 86400) "t" "en" false).2 = [e31] ∧
    (get_cached_analysis [e31] (30 * 86400) "t" "en" true).2 =
      [{ e31 with hit_count := e31.hit_count + 1 }] := by
  have h := claim7_hit_best_effort [e31] (30 * 86400) "t" "en"
  exact ⟨h.1, h.2.1, h.2.2 e31 rfl rfl (by decide)⟩

/-- Claim C8: on an entity-cache miss the freshly computed enrichment is
returned to the caller, and it is persisted if and only if its summary
is truthy (non-empty): with a falsy summary the store is unchanged and a
later lookup for the same key still misses, so the live providers are
retried. -/
theorem claim8_cache_write_iff (store : List EntityCacheEntry) (now : Int)
    (entity_text entity_type : String) (enrichment : WikiEnrichment)
    (hmiss : get_cached_entity store entity_text entity_type = none) :
    (enrich_entity store now entity_text entity_type true enrichment).1 =
      EnrichOutcome.fresh enrichment ∧
    ((∃ e ∈ (enrich_entity store now entity_text entity_type true enrichment).2,
        e.entity_name = entity_text ∧ e.entity_type = entity_type) ↔
      pyTruthyStr enrichment.summary = true) ∧
    (pyTruthyStr enrichment.summary = false →
      (enrich_entity store now entity_text entity_type true enrichment).2 = store ∧
      get_cached_entity (enrich_entity store now entity_text entity_type true enrichment).2
        entity_text entity_type = none) := by
  have hno : ∀ x ∈ store, entityKeyMatches entity_text entity_type x = false := by
    intro x hx
    have hfil : store.filter (entityKeyMatches entity_text entity_type) = [] := by
      unfold get_cached_entity at hmiss
      exact List.head?_eq_none_iff.mp hmiss
    simpa using List.filter_eq_nil_iff.mp hfil x hx
  cases htr : pyTruthyStr enrichment.summary
  · refine ⟨?_, ?_, ?_⟩
    · simp [enrich_entity, hmiss, htr]
    · simp only [Bool.false_eq_true, iff_false]
      rintro ⟨e, he, hn, ht⟩
      rw [show (enrich_entity store now entity_text entity_type true enrichment).2 = store
          by simp [enrich_entity, hmiss, htr]] at he
      have hx := hno e he
      rw [entityKeyMatches, hn, ht] at hx
      simp at hx
    · intro _
      constructor
      · simp [enrich_entity, hmiss, htr]
      · rw [show (enrich_entity store now entity_text entity_type true enrichment).2 = store
            by simp [enrich_entity, hmiss, htr]]
        exact hmiss
  · have hany : store.any (entityKeyMatches
        (entityCacheData entity_text entity_type now enrichment).entity_name
        (entityCacheData entity_text entity_type now enrichment).entity_type) = false := by
      rw [List.any_eq_false]
      intro x hx
      simpa using hno x hx
    have hsave : (enrich_entity store now entity_text entity_type true enrichment).2 =
        store ++ [entityCacheData entity_text entity_type now enrichment] := by
      simp [enrich_entity, hmiss, htr, save_entity_cache, hany]
    refine ⟨by simp [enrich_entity, hmiss, htr], ?_, ?_⟩
    · rw [hsave]
      constructor
      · intro _
        rfl
      · intro _
        exact ⟨entityCacheData entity_text entity_type now enrichment,
          List.mem_append_right _ (List.mem_singleton.mpr rfl), rfl, rfl⟩
    · intro hcontra
      simp at hcontra

/-- A live enrichment with a truthy summary. -/
def wikiEnr : WikiEnrichment :=
  { summary := some "Capital of France."
    url := some "https://en.wikipedia.org/wiki/Paris"
    categories := ["History of Paris"]
    cultural_significance := "geographical"
    wikidata := none
    source := some "Wikipedia" }

/-- Claim C8, witness: on a miss against the empty store, the fresh
enrichment is returned and, its summary being non-empty, a row for the
key appears in the cache. -/
theorem claim8_witness :
    (enrich_entity [] 0 "Paris" "GPE" true wikiEnr).1 = EnrichOutcome.fresh wikiEnr ∧
    (∃ e ∈ (enrich_entity [] 0 "Paris" "GPE" true wikiEnr).2,
      e.entity_name = "Paris" ∧ e.entity_type = "GPE") := by
  have h := claim8_cache_write_iff [] 0 "Paris" "GPE" wikiEnr rfl
  exact ⟨h.1, h.2.1.mpr rfl⟩

/-- Claim C10: an analysis-cache upsert always stores the row with a
zero hit count and both `created_at` and `last_accessed` set to the
write time, so re-saving a result for an already-cached key discards the
accumulated hit count and restarts the 30-day TTL from the new write:
afterwards a read at time `t` hits exactly when `t` is within 30 days of
the re-save. -/
theorem claim10_save_resets (eOld : AnalysisCacheEntry) (now : Int) (nextId : Nat)
    (text language : String) (res : AnalysisResult)
    (hhash : eOld.text_hash = generate_text_hash text language)
    (hlang : eOld.language = language) :
    total_cached_entries (save_analysis_cache [eOld] now nextId text language res) = 1 ∧
    (∀ e ∈ save_analysis_cache [eOld] now nextId text language res,
      e.hit_count = 0 ∧ e.created_at = now ∧ e.last_accessed = now ∧ e.id = eOld.id) ∧
    (∀ t : Int, ∀ inc : Bool,
      ((get_cached_analysis (save_analysis_cache [eOld] now nextId text language res)
          t text language inc).1).isSome = true ↔ t - 30 * 86400 < now) := by
  have hkey : analysisKeyMatches (generate_text_hash text language) language eOld = true := by
    unfold analysisKeyMatches
    rw [hhash, hlang]
    simp
  have hsave : save_analysis_cache [eOld] now nextId text language res =
      [analysisCacheData eOld.id now text language res] := by
    simp only [save_analysis_cache, List.any_cons, List.any_nil, hkey, Bool.or_false,
      if_true, List.map_cons, List.map_nil]
  rw [hsave]
  refine ⟨rfl, ?_, ?_⟩
  · intro e he
    rw [List.mem_singleton] at he
    subst he
    exact ⟨rfl, rfl, rfl, rfl⟩
  · intro t inc
    by_cases ht : t - 30 * 86400 < now
    · have hcond : analysisRowMatches (generate_text_hash text language) language
          (t - 30 * 86400) (analysisCacheData eOld.id now text language res) = true := by
        unfold analysisRowMatches analysisCacheData
        simp only [beq_self_eq_true, Bool.true_and]
        exact decide_eq_true ht
      simp only [get_cached_analysis, List.filter_cons, List.filter_nil, hcond, if_true]
      simp only [Option.isSome_some, true_iff]
      omega
    · have hcond : analysisRowMatches (generate_text_hash text language) language
          (t - 30 * 86400) (analysisCacheData eOld.id now text language res) = false := by
        unfold analysisRowMatches analysisCacheData
        simp only [beq_self_eq_true, Bool.true_and]
        exact decide_eq_false ht
      simp only [get_cached_analysis, List.filter_cons, List.filter_nil, hcond,
        Bool.false_eq_true, if_false]
      simp only [Option.isSome_none, Bool.false_eq_true, false_iff]
      omega

/-- An analysis-cache row with accumulated hits, about to be re-saved. -/
def eOld10 : AnalysisCacheEntry := { e30 with created_at := 7, hit_count := 42 }

/-- A fresh analysis payload for the re-save. -/
def res10 : AnalysisResult :=
  { cultural_origin := "Ancient Rome"
    cross_cultural_connections := "aqueducts across the Mediterranean"
    modern_analogy := "municipal water supply"
    timeline_events := []
    geographic_locations := ["Rome"]
    key_concepts := ["engineering"]
    external_resources := [] }

/-- Claim C10, witness: re-saving over a row with 42 hits leaves one row
with the counters and timestamps reset, and a read 100 seconds after the
re-save hits again. -/
theorem claim10_witness :
    total_cached_entries (save_analysis_cache [eOld10] 100 9 "t" "en" res10) = 1 ∧
    ((get_cached_analysis (save_analysis_cache [eOld10] 100 9 "t" "en" res10)
        200 "t" "en" true).1).isSome = true := by
  have h := claim10_save_resets eOld10 100 9 "t" "en" res10 rfl rfl
  exact ⟨h.1, (h.2.2 200 true).mpr (by decide)⟩

end B65
